import Mathlib

/-!
Verification of the chat API client (`src/api.ts`, `src/types.ts`) and the
speech-recognition controller hook (`useSpeechRecognition.ts`) as a shallow
embedding in Lean 4.

The chat client is modelled as a pure function from an environment (the
configured API key and the single fetch outcome) to an `Except` result plus
the list of network calls issued.  The speech controller is modelled as an
explicit state machine whose state mirrors the React refs and state cells of
the hook; platform callbacks and caller operations are state transformers,
and scheduled `setTimeout` tasks live in a pending-timer list so that
cancellation and late firing can be reasoned about.
-/

namespace Chat

/-- Attachment record, from `ChatAttachment` in `types.ts`. -/
structure ChatAttachment where
  name : String
  mime : String
  contentString : String
deriving DecidableEq, Repr

/-- Source record, from `Source` in `types.ts`. -/
structure Source where
  title : String
  chunk : String
deriving DecidableEq, Repr

/-- Parsed 2xx response body, from `ApiResponse` in `types.ts`.
`error : Option String` covers both JSON `null` and an absent field (both are
falsy and indistinguishable to the code). -/
structure ApiResponse where
  id : String
  type : String
  textResponse : String
  sources : List Source
  close : Bool
  error : Option String
deriving DecidableEq, Repr

/-- Parsed non-2xx error body, from `ApiErrorResponse` in `types.ts`:
both fields optional strings. -/
structure ApiErrorResponse where
  error : Option String
  message : Option String
deriving DecidableEq, Repr

/-- Chat request mode, from the `mode` parameter type in `api.ts`. -/
inductive Mode where
  | query
  | chat
deriving DecidableEq, Repr

/-- The JSON request body built by `sendChatMessage` (lines 26-36 of
`api.ts`): `attachments = none` means the field is omitted from the wire
payload. -/
structure RequestBody where
  message : String
  mode : Mode
  sessionId : String
  reset : Bool
  attachments : Option (List ChatAttachment)
deriving DecidableEq, Repr

/-- A JavaScript exception that is not a `ChatApiError`: a `TypeError`
(carrying its message) or any other error value. -/
inductive JsError where
  | typeError (msg : String)
  | otherError (msg : String)
deriving DecidableEq, Repr

/-- The `details` payload attached to a `ChatApiError`: `{status, statusText}`
on the HTTP-error path, the full parsed body on the 2xx embedded-error path,
the underlying JS error on the catch paths, nothing on the missing-key path. -/
inductive ErrorDetails where
  | noDetails
  | statusDetails (status : Nat) (statusText : String)
  | bodyDetails (body : ApiResponse)
  | jsErrorDetails (e : JsError)
deriving DecidableEq, Repr

/-- The `ChatApiError` class of `api.ts`. -/
structure ChatApiError where
  message : String
  details : ErrorDetails
deriving DecidableEq, Repr

deriving instance DecidableEq for Except

/-- An HTTP response as `sendChatMessage` observes it: status, status text,
and the outcome of `response.json()` parsed under the schema each path reads
(`jsonError` is consulted on the non-2xx path, `jsonOk` on the 2xx path;
`.error` means `response.json()` rejected). -/
structure HttpResponse where
  status : Nat
  statusText : String
  jsonError : Except JsError ApiErrorResponse
  jsonOk : Except JsError ApiResponse
deriving DecidableEq, Repr

/-- Environment of one `sendChatMessage` call: the module-level `API_KEY`
(`none` = env var undefined) and the outcome of the single `fetch`
(`.error` = the fetch promise rejected, e.g. network failure). -/
structure FetchEnv where
  apiKey : Option String
  result : Except JsError HttpResponse
deriving DecidableEq, Repr

/-- JS truthiness of `import.meta.env.VITE_API_KEY`: `!API_KEY` is true when
the variable is undefined or the empty string. -/
def keyFalsy : Option String → Bool
  | none => true
  | some s => s == ""

/-- JS truthiness of an optional string field: false for `undefined`/`null`
and for the empty string. -/
def strTruthy : Option String → Bool
  | none => false
  | some s => s != ""

def msgMissingKey : String :=
  "API anahtarı bulunamadı. Lütfen .env dosyasında VITE_API_KEY değişkenini ayarlayın."

def msgInvalidKey : String :=
  "Geçersiz API anahtarı. Lütfen API anahtarınızı kontrol edin ve .env dosyasında VITE_API_KEY değişkenini doğru şekilde ayarlayın."

def msgAccessDenied : String :=
  "API erişimi reddedildi. Lütfen yetkilendirme bilgilerinizi kontrol edin."

def msgInvalidRequest : String :=
  "Geçersiz istek. Lütfen gönderdiğiniz verileri kontrol edin."

def msgServerError : String :=
  "Sunucu hatası. Lütfen daha sonra tekrar deneyin."

def msgNetwork : String :=
  "Ağ bağlantı hatası. İnternet bağlantınızı kontrol edin ve tekrar deneyin."

def msgUnexpected : String :=
  "Beklenmeyen bir hata oluştu. Lütfen tekrar deneyin."

/-- The generic status-line message used as the default on the non-2xx path. -/
def statusLineMsg (status : Nat) (statusText : String) : String :=
  "API yanıt hatası: " ++ toString status ++ " " ++ statusText

/-- Substring test, modelling `String.prototype.includes`. -/
def strIncludes (haystack needle : String) : Bool :=
  (List.range (haystack.data.length + 1)).any
    (fun i => needle.data.isPrefixOf (haystack.data.drop i))

/-- Request body construction (`api.ts` lines 26-36): the `attachments` field
is set only when the argument is present and has positive length. -/
def buildRequestBody (message : String) (mode : Mode) (sessionId : String)
    (attachments : Option (List ChatAttachment)) (reset : Bool) : RequestBody :=
  { message := message, mode := mode, sessionId := sessionId, reset := reset,
    attachments :=
      match attachments with
      | some l => if l.length > 0 then some l else none
      | none => none }

/-- Non-2xx error-message classification (`api.ts` lines 64-89).
`body = none` means the JSON error body failed to parse (the `catch
(parseError)` branch keeps the default message). -/
def classifyError (status : Nat) (statusText : String)
    (body : Option ApiErrorResponse) : String :=
  match body with
  | none => statusLineMsg status statusText
  | some errorData =>
    if status == 403 then
      if errorData.error == some "No valid api key found."
          || errorData.message == some "Invalid API Key" then
        msgInvalidKey
      else
        msgAccessDenied
    else if status == 400 then
      match errorData.message with
      | some m => if m != "" then m else msgInvalidRequest
      | none => msgInvalidRequest
    else if status == 500 then
      msgServerError
    else if strTruthy errorData.message then
      errorData.message.getD ""
    else if strTruthy errorData.error then
      errorData.error.getD ""
    else
      statusLineMsg status statusText

/-- An exception raised inside the `try` block of `sendChatMessage`: either a
`ChatApiError` thrown by the code itself, or a JS error from `fetch` /
`response.json()`. -/
inductive Raised where
  | api (e : ChatApiError)
  | js (e : JsError)
deriving DecidableEq, Repr

/-- `response.ok` of the fetch API: status in [200, 300). -/
def respOk (status : Nat) : Bool :=
  200 ≤ status && status < 300

/-- Body of the `try` block of `sendChatMessage` (`api.ts` lines 20-111),
returning the result or the raised exception, together with the list of
network calls issued (each entry is the JSON body handed to `fetch`). -/
def sendChatMessageBody (env : FetchEnv) (message : String) (mode : Mode)
    (sessionId : String) (attachments : Option (List ChatAttachment))
    (reset : Bool) : Except Raised ApiResponse × List RequestBody :=
  if keyFalsy env.apiKey then
    (.error (.api { message := msgMissingKey, details := .noDetails }), [])
  else
    let body := buildRequestBody message mode sessionId attachments reset
    match env.result with
    | .error e => (.error (.js e), [body])
    | .ok resp =>
      if !respOk resp.status then
        (.error (.api
          { message := classifyError resp.status resp.statusText resp.jsonError.toOption,
            details := .statusDetails resp.status resp.statusText }), [body])
      else
        match resp.jsonOk with
        | .error e => (.error (.js e), [body])
        | .ok data =>
          if strTruthy data.error && data.error != some "null" then
            (.error (.api { message := data.error.getD "", details := .bodyDetails data }), [body])
          else
            (.ok data, [body])

/-- The `catch` handler of `sendChatMessage` (`api.ts` lines 112-124):
`ChatApiError` passes through unchanged; a `TypeError` whose message contains
"fetch" becomes the connectivity error carrying the underlying error as
details; anything else becomes the generic fallback error. -/
def handleCatch : Raised → ChatApiError
  | .api e => e
  | .js e =>
    match e with
    | .typeError m =>
      if strIncludes m "fetch" then
        { message := msgNetwork, details := .jsErrorDetails (.typeError m) }
      else
        { message := msgUnexpected, details := .jsErrorDetails (.typeError m) }
    | .otherError m =>
      { message := msgUnexpected, details := .jsErrorDetails (.otherError m) }

/-- `sendChatMessage` (`api.ts` lines 13-125): the try body with every raised
exception routed through the catch handler, so the visible error type is
always `ChatApiError`. -/
def sendChatMessage (env : FetchEnv) (message : String) (mode : Mode)
    (sessionId : String) (attachments : Option (List ChatAttachment))
    (reset : Bool) : Except ChatApiError ApiResponse × List RequestBody :=
  let r := sendChatMessageBody env message mode sessionId attachments reset
  (r.1.mapError handleCatch, r.2)

/-- A 2xx body whose `error` field is the empty string: non-null and not the
literal string "null", yet falsy to the truthiness test of line 107. -/
def dataEmptyErr : ApiResponse :=
  { id := "1", type := "textResponse", textResponse := "hi", sources := [],
    close := false, error := some "" }

def respEmptyErr : HttpResponse :=
  { status := 200, statusText := "OK",
    jsonError := .error (.otherError "unused"), jsonOk := .ok dataEmptyErr }

def envEmptyErr : FetchEnv :=
  { apiKey := some "k", result := .ok respEmptyErr }

/-- A 2xx body whose `error` field is a non-empty string. -/
def dataBoom : ApiResponse :=
  { id := "2", type := "abort", textResponse := "", sources := [],
    close := true, error := some "boom" }

def respBoom : HttpResponse :=
  { status := 200, statusText := "OK",
    jsonError := .error (.otherError "unused"), jsonOk := .ok dataBoom }

def envBoom : FetchEnv :=
  { apiKey := some "k", result := .ok respBoom }

/-- A 400 error body whose `message` field is present but the empty string. -/
def errBody400 : ApiErrorResponse :=
  { error := none, message := some "" }

def resp400 : HttpResponse :=
  { status := 400, statusText := "Bad Request",
    jsonError := .ok errBody400, jsonOk := .error (.otherError "unused") }

def env400 : FetchEnv :=
  { apiKey := some "k", result := .ok resp400 }

/-- A 403 error body carrying the invalid-key marker. -/
def errBody403 : ApiErrorResponse :=
  { error := some "No valid api key found.", message := none }

def resp403 : HttpResponse :=
  { status := 403, statusText := "Forbidden",
    jsonError := .ok errBody403, jsonOk := .error (.otherError "unused") }

def env403 : FetchEnv :=
  { apiKey := some "k", result := .ok resp403 }

/-- Environment where the fetch promise itself rejects with the TypeError the
browser raises on connection failure. -/
def envNetFail : FetchEnv :=
  { apiKey := some "k", result := .error (.typeError "Failed to fetch") }

/-- Environment with no configured API key. -/
def envNoKey : FetchEnv :=
  { apiKey := none, result := .error (.otherError "offline") }

/-- A concrete attachment. -/
def attA : ChatAttachment :=
  { name := "ders.png", mime := "image/png", contentString := "data-url" }

end Chat

namespace Speech

/-- One entry of a recognition "result" event: the segment text and its
`isFinal` flag. -/
structure Segment where
  text : String
  isFinal : Bool
deriving DecidableEq, Repr

/-- A scheduled `setTimeout` task of the hook: the 100ms dispatch of the
utterance callback (which has captured the non-null callback and the text),
or the 1500ms voice-mode restart. -/
inductive TimerKind where
  | dispatch (text : String)
  | restart
deriving DecidableEq, Repr

/-- A pending timer with the handle `setTimeout` returned. -/
structure Timer where
  id : Nat
  kind : TimerKind
deriving DecidableEq, Repr

/-- State of the `useSpeechRecognition` hook: the React state cells
(`isListening`, `transcript`, `isSupported`) and refs (`recognitionRef` as
`recognitionActive`, `onSpeechEndRef` as `hasCallback`, `finalTranscriptRef`,
`isVoiceModeRef`, `timeoutRef` as `timeoutId`, `isProcessingRef`,
`lastProcessedTextRef`), plus the scheduler (pending timers and the next
fresh handle) and observable effect logs (`callbackLog` records each
invocation of the utterance callback, `alerts` counts `alert()` calls,
`permissionQueries` counts microphone-permission checks,
`stopRequests` counts `recognition.stop()` calls). -/
structure SpeechState where
  isListening : Bool
  transcript : String
  isSupported : Bool
  recognitionActive : Bool
  hasCallback : Bool
  finalTranscript : String
  isVoiceMode : Bool
  timeoutId : Option Nat
  isProcessing : Bool
  lastProcessed : String
  pending : List Timer
  nextId : Nat
  callbackLog : List String
  alerts : Nat
  permissionQueries : Nat
  stopRequests : Nat
deriving DecidableEq, Repr

/-- The hook's initial state: all cells empty/false, no engine, no timers. -/
def initState : SpeechState :=
  { isListening := false, transcript := "", isSupported := false,
    recognitionActive := false, hasCallback := false, finalTranscript := "",
    isVoiceMode := false, timeoutId := none, isProcessing := false,
    lastProcessed := "", pending := [], nextId := 0, callbackLog := [],
    alerts := 0, permissionQueries := 0, stopRequests := 0 }

/-- The mount effect (lines 45-51): sets `isSupported` when the platform
exposes a SpeechRecognition constructor. -/
def detectSupport (ctorAvailable : Bool) (s : SpeechState) : SpeechState :=
  if ctorAvailable then { s with isSupported := true } else s

/-- `cleanup` (lines 53-64): clear the pending timeout if any (cancelling
that timer), abort and drop the engine (a no-op when none is held), clear the
listening and in-flight flags. -/
def cleanup (s : SpeechState) : SpeechState :=
  match s.timeoutId with
  | some i =>
    { s with pending := s.pending.filter (fun t => t.id != i), timeoutId := none,
             recognitionActive := false, isListening := false, isProcessing := false }
  | none =>
    { s with recognitionActive := false, isListening := false, isProcessing := false }

/-- Environment of one `startListening` call: the microphone-permission
outcome, whether `new SpeechRecognition()` succeeds, and whether
`recognition.start()` succeeds. -/
structure StartEnv where
  hasPermission : Bool
  instOk : Bool
  startOk : Bool
deriving DecidableEq, Repr

/-- `startListening` (lines 86-204).  `hasCb` is whether an `onSpeechEnd`
callback was supplied.  `.error s` models the exception of a failed
`new SpeechRecognition()` escaping as a rejected promise, carrying the state
at the throw point; every other path resolves with `.ok`.  On `start()`
failure the catch block clears the listening flag, the engine reference and
the in-flight flag. -/
def startListening (env : StartEnv) (hasCb : Bool) (s : SpeechState) :
    Except SpeechState SpeechState :=
  if !s.isSupported then .ok s
  else
    let s1 := { s with permissionQueries := s.permissionQueries + 1 }
    if !env.hasPermission then .ok { s1 with alerts := s1.alerts + 1 }
    else
      let s2 := cleanup s1
      let s3 := { s2 with isVoiceMode := hasCb, hasCallback := hasCb,
                          finalTranscript := "", isProcessing := false,
                          lastProcessed := "" }
      if !env.instOk then .error s3
      else
        let s4 := { s3 with recognitionActive := true }
        if env.startOk then .ok s4
        else .ok { s4 with isListening := false, recognitionActive := false,
                           isProcessing := false }

/-- JS `String.prototype.trim`: strip whitespace from both ends.  Modelled
over the character list so that it evaluates by kernel reduction. -/
def jsTrim (s : String) : String :=
  ⟨((s.data.dropWhile Char.isWhitespace).reverse.dropWhile Char.isWhitespace).reverse⟩

/-- The engine's `onstart` callback (lines 120-124). -/
def onstart (s : SpeechState) : SpeechState :=
  { s with isListening := true, transcript := "" }

/-- Concatenated text of the finalized segments of one result event. -/
def finalText (ev : List Segment) : String :=
  String.join ((ev.filter (fun r => r.isFinal)).map (fun r => r.text))

/-- Concatenated text of the interim segments of one result event. -/
def interimText (ev : List Segment) : String :=
  String.join ((ev.filter (fun r => !r.isFinal)).map (fun r => r.text))

/-- The engine's `onresult` callback (lines 126-167), returning the new state
and `some text` exactly when a dispatch was scheduled (`recognition.stop()`
called, text recorded as last-processed, 100ms timer scheduled with the
captured callback; the timer handle is discarded, not stored in
`timeoutRef`). -/
def onresultStep (s : SpeechState) (ev : List Segment) : SpeechState × Option String :=
  if finalText ev ≠ "" ∧ s.isVoiceMode = true ∧ s.hasCallback = true ∧ s.isProcessing = false then
    if jsTrim (s.finalTranscript ++ finalText ev) ≠ "" ∧
        jsTrim (s.finalTranscript ++ finalText ev) ≠ s.lastProcessed ∧
        (jsTrim (s.finalTranscript ++ finalText ev)).length > 2 then
      ({ s with finalTranscript := s.finalTranscript ++ finalText ev,
                transcript := s.finalTranscript ++ finalText ev ++ interimText ev,
                isProcessing := true,
                lastProcessed := jsTrim (s.finalTranscript ++ finalText ev),
                stopRequests := s.stopRequests + 1,
                pending := s.pending ++
                  [{ id := s.nextId, kind := .dispatch (jsTrim (s.finalTranscript ++ finalText ev)) }],
                nextId := s.nextId + 1 },
        some (jsTrim (s.finalTranscript ++ finalText ev)))
    else
      ({ s with finalTranscript := s.finalTranscript ++ finalText ev,
                transcript := s.finalTranscript ++ finalText ev ++ interimText ev }, none)
  else
    ({ s with finalTranscript := s.finalTranscript ++ finalText ev,
              transcript := s.finalTranscript ++ finalText ev ++ interimText ev }, none)

/-- State part of `onresult`. -/
def onresult (s : SpeechState) (ev : List Segment) : SpeechState :=
  (onresultStep s ev).1

/-- Fold of `onresult` over a sequence of result events, collecting the
dispatched texts in order. -/
def runResults (s : SpeechState) (evs : List (List Segment)) :
    SpeechState × List String :=
  match evs with
  | [] => (s, [])
  | ev :: rest =>
    ((runResults (onresultStep s ev).1 rest).1,
      (onresultStep s ev).2.toList ++ (runResults (onresultStep s ev).1 rest).2)

/-- The engine's `onend` callback (lines 169-179). -/
def onend (s : SpeechState) : SpeechState :=
  let s1 := { s with isListening := false, recognitionActive := false }
  if !s1.isVoiceMode && s1.finalTranscript != "" then
    { s1 with transcript := s1.finalTranscript }
  else
    s1

/-- The engine's `onerror` callback (lines 181-194): "not-allowed" shows the
permission alert; every code clears the listening flag, the engine reference
and the in-flight flag. -/
def onerror (s : SpeechState) (code : String) : SpeechState :=
  let s1 := if code == "not-allowed" then { s with alerts := s.alerts + 1 } else s
  { s1 with isListening := false, recognitionActive := false,
            isProcessing := false }

/-- `stopListening` (lines 206-213): clear voice-mode flag, callback,
in-flight and last-processed tracking, then `cleanup`. -/
def stopListening (s : SpeechState) : SpeechState :=
  cleanup { s with isVoiceMode := false, hasCallback := false,
                   isProcessing := false, lastProcessed := "" }

/-- `resetTranscript` (lines 215-221). -/
def resetTranscript (s : SpeechState) : SpeechState :=
  { s with transcript := "", finalTranscript := "", lastProcessed := "",
           isProcessing := false }

/-- `restartListening` (lines 224-241): clear any existing timeout, clear the
in-flight flag, schedule a restart timer and store its handle in
`timeoutRef`. -/
def restartListening (s : SpeechState) : SpeechState :=
  let s1 :=
    match s.timeoutId with
    | some i => { s with pending := s.pending.filter (fun t => t.id != i) }
    | none => s
  let s2 := { s1 with isProcessing := false }
  { s2 with pending := s2.pending ++ [{ id := s2.nextId, kind := .restart }],
            timeoutId := some s2.nextId, nextId := s2.nextId + 1 }

/-- Firing of a scheduled timer with handle `i` (a no-op if it was cancelled):
the dispatch timer invokes the captured callback with the captured text
unconditionally; the restart timer calls `startListening` only if voice mode
is still active at fire time (line 237). -/
def fireTimer (env : StartEnv) (s : SpeechState) (i : Nat) :
    Except SpeechState SpeechState :=
  match s.pending.find? (fun t => t.id == i) with
  | none => .ok s
  | some t =>
    let s1 := { s with pending := s.pending.filter (fun u => u.id != i) }
    match t.kind with
    | .dispatch text => .ok { s1 with callbackLog := s1.callbackLog ++ [text] }
    | .restart => if s1.isVoiceMode then startListening env true s1 else .ok s1

/-- The state a `startListening` call leaves behind, whether it resolved or
rejected. -/
def resultState : Except SpeechState SpeechState → SpeechState
  | .ok s => s
  | .error s => s

/-- Scheduler invariant maintained by the hook: `timeoutRef` holds exactly
the handle of the pending restart timer (restart timers are scheduled only by
`restartListening`, which stores the handle; dispatch-timer handles are
discarded, so `timeoutRef` never points at one). -/
def timerInv (s : SpeechState) : Prop :=
  ∀ t ∈ s.pending,
    (t.kind = .restart → s.timeoutId = some t.id) ∧
    (t.kind ≠ .restart → s.timeoutId ≠ some t.id)

/-- State after the support-detection effect on a platform with an engine. -/
def sSupported : SpeechState := detectSupport true initState

def envOk : StartEnv := { hasPermission := true, instOk := true, startOk := true }

def envInstFail : StartEnv := { hasPermission := true, instOk := false, startOk := true }

def envStartFail : StartEnv := { hasPermission := true, instOk := true, startOk := false }

/-- One recognition result event carrying a single finalized segment. -/
def evMerhaba : List Segment := [{ text := "merhaba", isFinal := true }]

/-- Listening state of a voice-mode session right after `onstart`. -/
def sVoice : SpeechState :=
  onstart (resultState (startListening envOk true sSupported))

/-- Voice-mode state right after the first finalized result dispatched. -/
def sDispatched : SpeechState := onresult sVoice evMerhaba

/-- State after `stopListening` follows the dispatch. -/
def sStopped : SpeechState := stopListening sDispatched

/-- A state holding one pending dispatch timer and one pending restart timer
whose handle is the stored `timeoutRef`. -/
def sWithTimers : SpeechState :=
  { initState with
    pending := [{ id := 0, kind := .dispatch "merhaba" }, { id := 1, kind := .restart }],
    timeoutId := some 1, nextId := 2, isVoiceMode := true }

end Speech

open Chat Speech

/-- On every path past the key check, exactly one network call is issued and
its body is the one `buildRequestBody` constructs. -/
theorem sendChatMessage_calls (env : FetchEnv) (message : String) (mode : Mode)
    (sessionId : String) (attachments : Option (List ChatAttachment)) (reset : Bool)
    (h : keyFalsy env.apiKey = false) :
    (sendChatMessage env message mode sessionId attachments reset).2 =
      [buildRequestBody message mode sessionId attachments reset] := by
  unfold sendChatMessage sendChatMessageBody
  simp only [h, Bool.false_eq_true, if_false]
  split
  · rfl
  · split
    · rfl
    · split
      · rfl
      · split <;> rfl

/-- C5: with the API-key credential absent (or empty, which is equally falsy),
`sendChatMessage` fails with the missing-credential `ChatApiError` and issues
zero network calls. -/
theorem chat_missing_key_no_network (env : FetchEnv) (message : String) (mode : Mode)
    (sessionId : String) (attachments : Option (List ChatAttachment)) (reset : Bool)
    (h : keyFalsy env.apiKey = true) :
    sendChatMessage env message mode sessionId attachments reset =
      (.error { message := msgMissingKey, details := .noDetails }, []) := by
  unfold sendChatMessage sendChatMessageBody
  simp [h, handleCatch, Except.mapError]

/-- Witness for C5 at a concrete input (no key configured, network down). -/
theorem chat_missing_key_no_network_witness :
    sendChatMessage envNoKey "merhaba" .chat "user-session-1" none false =
      (.error { message := msgMissingKey, details := .noDetails }, []) :=
  chat_missing_key_no_network envNoKey "merhaba" .chat "user-session-1" none false (by decide)

/-- C6: with a credential configured, the JSON body handed to `fetch` omits
the `attachments` field for an absent or empty attachment sequence and
includes it verbatim for a non-empty one, always alongside `message`, `mode`,
`sessionId` and `reset`. -/
theorem chat_attachments_inclusion (env : FetchEnv) (message : String) (mode : Mode)
    (sessionId : String) (attachments : Option (List ChatAttachment)) (reset : Bool)
    (h : keyFalsy env.apiKey = false) :
    ((attachments = none ∨ attachments = some [] →
      (sendChatMessage env message mode sessionId attachments reset).2 =
        [{ message := message, mode := mode, sessionId := sessionId,
           reset := reset, attachments := none }])) ∧
    (∀ l, attachments = some l → l ≠ [] →
      (sendChatMessage env message mode sessionId attachments reset).2 =
        [{ message := message, mode := mode, sessionId := sessionId,
           reset := reset, attachments := some l }]) := by
  constructor
  · intro hatt
    rw [sendChatMessage_calls env message mode sessionId attachments reset h]
    rcases hatt with h1 | h1 <;> subst h1 <;> simp [buildRequestBody]
  · intro l hl hne
    rw [sendChatMessage_calls env message mode sessionId attachments reset h]
    subst hl
    simp [buildRequestBody, List.length_pos, hne]

/-- Witness for C6: empty and singleton attachment lists at concrete calls. -/
theorem chat_attachments_inclusion_witness :
    (sendChatMessage envBoom "m" .chat "s1" (some ([] : List ChatAttachment)) false).2 =
      [{ message := "m", mode := .chat, sessionId := "s1",
         reset := false, attachments := none }] ∧
    (sendChatMessage envBoom "m" .chat "s1" (some [attA]) false).2 =
      [{ message := "m", mode := .chat, sessionId := "s1",
         reset := false, attachments := some [attA] }] :=
  ⟨(chat_attachments_inclusion envBoom "m" .chat "s1" (some []) false (by decide)).1
      (Or.inr rfl),
   (chat_attachments_inclusion envBoom "m" .chat "s1" (some [attA]) false (by decide)).2
      [attA] rfl (by decide)⟩

/-- C9: `resetTranscript` clears the displayed transcript, the accumulated
final buffer, the last-dispatched text and the in-flight flag, and leaves
every other piece of controller state (listening flag, support flag, engine
instance and stop-request count, callback, voice-mode flag, pending timers
and stored timeout handle, logs) unchanged. -/
theorem speech_reset_transcript_frame (s : SpeechState) :
    ((resetTranscript s).transcript = "" ∧
     (resetTranscript s).finalTranscript = "" ∧
     (resetTranscript s).lastProcessed = "" ∧
     (resetTranscript s).isProcessing = false) ∧
    ((resetTranscript s).isListening = s.isListening ∧
     (resetTranscript s).isSupported = s.isSupported ∧
     (resetTranscript s).recognitionActive = s.recognitionActive ∧
     (resetTranscript s).hasCallback = s.hasCallback ∧
     (resetTranscript s).isVoiceMode = s.isVoiceMode ∧
     (resetTranscript s).timeoutId = s.timeoutId ∧
     (resetTranscript s).pending = s.pending ∧
     (resetTranscript s).nextId = s.nextId ∧
     (resetTranscript s).callbackLog = s.callbackLog ∧
     (resetTranscript s).alerts = s.alerts ∧
     (resetTranscript s).permissionQueries = s.permissionQueries ∧
     (resetTranscript s).stopRequests = s.stopRequests) :=
  ⟨⟨rfl, rfl, rfl, rfl⟩,
   rfl, rfl, rfl, rfl, rfl, rfl, rfl, rfl, rfl, rfl, rfl, rfl⟩

/-- C10: when the platform provides no speech-recognition engine,
`startListening` resolves immediately with the state unchanged: no permission
query or microphone probe, no alert, no engine, no flag or timer touched. -/
theorem speech_unsupported_noop (env : StartEnv) (hasCb : Bool) (s : SpeechState)
    (h : s.isSupported = false) :
    startListening env hasCb s = .ok s := by
  unfold startListening
  simp [h]

/-- Witness for C10 at the initial (unsupported) state. -/
theorem speech_unsupported_noop_witness :
    startListening envOk true initState = .ok initState :=
  speech_unsupported_noop envOk true initState (by decide)

/-- C8 counterexample: with permission granted on a supported platform, a
failing `new SpeechRecognition()` (line 112, outside the try block of lines
196-203) leaves `startListening` rejected: the call does not resolve, the
failure escapes to the caller. -/
theorem speech_inst_failure_propagates :
    sSupported.isSupported = true ∧ envInstFail.hasPermission = true ∧
    (startListening envInstFail true sSupported).toOption = none := by
  decide

/-- C8 amended: a failure of `recognition.start()` is caught by the
try/catch, `startListening` resolves normally, and the controller is left
idle: listening flag false, engine reference cleared, in-flight flag
cleared. -/
theorem speech_start_failure_caught (env : StartEnv) (hasCb : Bool) (s : SpeechState)
    (hsup : s.isSupported = true) (hperm : env.hasPermission = true)
    (hinst : env.instOk = true) (hstart : env.startOk = false) :
    ∃ s2, startListening env hasCb s = .ok s2 ∧ s2.isListening = false ∧
      s2.recognitionActive = false ∧ s2.isProcessing = false := by
  unfold startListening
  simp [hsup, hperm, hinst, hstart]

/-- Witness for the amended C8: concrete supported state, start failure. -/
theorem speech_start_failure_caught_witness :
    ∃ s2, startListening envStartFail true sSupported = .ok s2 ∧ s2.isListening = false ∧
      s2.recognitionActive = false ∧ s2.isProcessing = false :=
  speech_start_failure_caught envStartFail true sSupported (by decide) (by decide)
    (by decide) (by decide)

/-- C1 counterexample: a 2xx body whose `error` field is the empty string is
non-null and not the literal string "null", yet `sendChatMessage` returns the
body instead of raising: the truthiness test of line 107 treats the empty
string as no error. -/
theorem chat_2xx_empty_error_returns_ok :
    dataEmptyErr.error ≠ none ∧ dataEmptyErr.error ≠ some "null" ∧
    (sendChatMessage envEmptyErr "merhaba" .chat "s1" none false).1 = .ok dataEmptyErr := by
  decide

/-- C1 amended: on a 2xx response, a truthy `error` field (a non-empty string
other than the literal "null") is raised as a `ChatApiError` with that value
as message and the full body as details; an `error` that is null, absent, the
empty string or the literal "null" lets the parsed body be returned
unchanged. -/
theorem chat_2xx_error_policy (env : FetchEnv) (resp : HttpResponse) (data : ApiResponse)
    (message : String) (mode : Mode) (sessionId : String)
    (attachments : Option (List ChatAttachment)) (reset : Bool)
    (hkey : keyFalsy env.apiKey = false) (hres : env.result = .ok resp)
    (hok : respOk resp.status = true) (hdata : resp.jsonOk = .ok data) :
    (∀ s, data.error = some s → s ≠ "" → s ≠ "null" →
      (sendChatMessage env message mode sessionId attachments reset).1 =
        .error { message := s, details := .bodyDetails data }) ∧
    (data.error = none ∨ data.error = some "" ∨ data.error = some "null" →
      (sendChatMessage env message mode sessionId attachments reset).1 = .ok data) := by
  unfold sendChatMessage sendChatMessageBody
  simp only [hkey, Bool.false_eq_true, if_false, hres, hok, Bool.not_true, hdata]
  constructor
  · intro s hs hne hnn
    rw [hs]
    have hg : (strTruthy (some s) && (some s != some "null")) = true := by
      simp [strTruthy, hne, hnn]
    simp [hg, Except.mapError, handleCatch]
  · intro hcase
    rcases hcase with h1 | h1 | h1 <;> rw [h1] <;> simp [strTruthy, Except.mapError]

/-- Witness for the amended C1: a 2xx body with `error = "boom"` raises it. -/
theorem chat_2xx_error_policy_witness :
    (sendChatMessage envBoom "merhaba" .chat "s1" none false).1 =
      .error { message := "boom", details := .bodyDetails dataBoom } :=
  (chat_2xx_error_policy envBoom respBoom dataBoom "merhaba" .chat "s1" none false
    (by decide) rfl (by decide) rfl).1 "boom" rfl (by decide) (by decide)

/-- C7: the only exceptions escaping `sendChatMessage` are `ChatApiError`s:
a `ChatApiError` raised in the body passes through the catch unchanged; a
`TypeError` whose message mentions fetch is re-raised as the connectivity
`ChatApiError` carrying the underlying error as details; every other
exception is re-raised as the generic fallback `ChatApiError`; a successful
body is returned as-is. -/
theorem chat_errors_are_chat_api_errors (env : FetchEnv) (message : String) (mode : Mode)
    (sessionId : String) (attachments : Option (List ChatAttachment)) (reset : Bool) :
    (∀ data, (sendChatMessageBody env message mode sessionId attachments reset).1 = .ok data →
      (sendChatMessage env message mode sessionId attachments reset).1 = .ok data) ∧
    (∀ e, (sendChatMessageBody env message mode sessionId attachments reset).1 = .error (.api e) →
      (sendChatMessage env message mode sessionId attachments reset).1 = .error e) ∧
    (∀ m, (sendChatMessageBody env message mode sessionId attachments reset).1 =
        .error (.js (.typeError m)) → strIncludes m "fetch" = true →
      (sendChatMessage env message mode sessionId attachments reset).1 =
        .error { message := msgNetwork, details := .jsErrorDetails (.typeError m) }) ∧
    (∀ m, (sendChatMessageBody env message mode sessionId attachments reset).1 =
        .error (.js (.typeError m)) → strIncludes m "fetch" = false →
      (sendChatMessage env message mode sessionId attachments reset).1 =
        .error { message := msgUnexpected, details := .jsErrorDetails (.typeError m) }) ∧
    (∀ m, (sendChatMessageBody env message mode sessionId attachments reset).1 =
        .error (.js (.otherError m)) →
      (sendChatMessage env message mode sessionId attachments reset).1 =
        .error { message := msgUnexpected, details := .jsErrorDetails (.otherError m) }) := by
  unfold sendChatMessage
  refine ⟨?_, ?_, ?_, ?_, ?_⟩
  · intro data hx
    simp only [hx, Except.mapError]
  · intro e hx
    simp only [hx, Except.mapError, handleCatch]
  · intro m hx hf
    simp only [hx, Except.mapError, handleCatch, hf, if_true]
  · intro m hx hf
    simp only [hx, Except.mapError, handleCatch, hf, Bool.false_eq_true, if_false]
  · intro m hx
    simp only [hx, Except.mapError, handleCatch]

/-- Witness for C7: a concrete rejected fetch yields the connectivity error. -/
theorem chat_errors_are_chat_api_errors_witness :
    (sendChatMessage envNetFail "m" .chat "s1" none false).1 =
      .error { message := msgNetwork, details := .jsErrorDetails (.typeError "Failed to fetch") } :=
  (chat_errors_are_chat_api_errors envNetFail "m" .chat "s1" none false).2.2.1
    "Failed to fetch" (by decide) (by decide)

/-- The classification table of the non-2xx path, spelled out clause by
clause against `classifyError` on a successfully parsed error body. -/
theorem classifyError_spec (status : Nat) (statusText : String) (d : ApiErrorResponse) :
    (status = 403 →
      ((d.error = some "No valid api key found." ∨ d.message = some "Invalid API Key") →
        classifyError status statusText (some d) = msgInvalidKey) ∧
      (d.error ≠ some "No valid api key found." → d.message ≠ some "Invalid API Key" →
        classifyError status statusText (some d) = msgAccessDenied)) ∧
    (status = 400 →
      ((∀ m, d.message = some m → m ≠ "" →
        classifyError status statusText (some d) = m) ∧
      (d.message = none ∨ d.message = some "" →
        classifyError status statusText (some d) = msgInvalidRequest))) ∧
    (status = 500 → classifyError status statusText (some d) = msgServerError) ∧
    (status ≠ 403 → status ≠ 400 → status ≠ 500 →
      ((∀ m, d.message = some m → m ≠ "" →
        classifyError status statusText (some d) = m) ∧
      (strTruthy d.message = false → ∀ e, d.error = some e → e ≠ "" →
        classifyError status statusText (some d) = e) ∧
      (strTruthy d.message = false → strTruthy d.error = false →
        classifyError status statusText (some d) = statusLineMsg status statusText))) := by
  refine ⟨?_, ?_, ?_, ?_⟩
  · rintro rfl
    constructor
    · rintro (h1 | h1) <;> simp [classifyError, h1]
    · intro h1 h2
      simp [classifyError, h1, h2]
  · rintro rfl
    constructor
    · intro m hm hne
      simp [classifyError, hm, hne]
    · rintro (h1 | h1) <;> simp [classifyError, h1]
  · rintro rfl
    simp [classifyError]
  · intro h403 h400 h500
    refine ⟨?_, ?_, ?_⟩
    · intro m hm hne
      simp [classifyError, h403, h400, h500, hm, strTruthy, hne]
    · intro hmsg e he hne
      simp [classifyError, h403, h400, h500, hmsg, he, strTruthy, hne]
      intro hcon
      rcases hd : d.message with _ | m
      · simp [hd] at hcon
      · rw [hd] at hcon
        simp [strTruthy, hd] at hmsg
        simp [hmsg] at hcon
    · intro hmsg herr
      rcases hd : d.message with _ | m <;> rcases hde : d.error with _ | e <;>
        simp_all [classifyError, h403, h400, h500, strTruthy]

/-- C2 counterexample: a 400 response whose body has `message` present but
equal to the empty string does not surface that message field (as the claim
states); the JS truthiness test discards it and the generic invalid-request
message is used instead. -/
theorem chat_400_empty_message_uses_generic :
    errBody400.message = some "" ∧
    resp400.status = 400 ∧
    (sendChatMessage env400 "merhaba" .chat "s1" none false).1 =
      .error { message := msgInvalidRequest, details := .statusDetails 400 "Bad Request" } ∧
    msgInvalidRequest ≠ "" := by
  decide

/-- C2 amended: on a non-2xx response `sendChatMessage` raises a
`ChatApiError` carrying `{status, statusText}` as details (no response object
is returned) whose message is selected in order: unparsable body gives the
generic status-line message; 403 with the invalid-key body markers gives the
invalid-credential message, any other 403 the access-denied message; 400
gives the body message when it is non-empty, else the generic
invalid-request message; 500 the generic server-error message; any other
status the non-empty body message, else the non-empty body error, else the
generic status-line message. -/
theorem chat_non2xx_classification (env : FetchEnv) (resp : HttpResponse)
    (message : String) (mode : Mode) (sessionId : String)
    (attachments : Option (List ChatAttachment)) (reset : Bool)
    (hkey : keyFalsy env.apiKey = false) (hres : env.result = .ok resp)
    (hnot : respOk resp.status = false) :
    ∃ M, (sendChatMessage env message mode sessionId attachments reset).1 =
        .error { message := M, details := .statusDetails resp.status resp.statusText } ∧
      (∀ e, resp.jsonError = .error e → M = statusLineMsg resp.status resp.statusText) ∧
      (∀ d, resp.jsonError = .ok d →
        ((resp.status = 403 →
          ((d.error = some "No valid api key found." ∨ d.message = some "Invalid API Key") →
            M = msgInvalidKey) ∧
          (d.error ≠ some "No valid api key found." → d.message ≠ some "Invalid API Key" →
            M = msgAccessDenied)) ∧
        (resp.status = 400 →
          ((∀ m, d.message = some m → m ≠ "" → M = m) ∧
          (d.message = none ∨ d.message = some "" → M = msgInvalidRequest))) ∧
        (resp.status = 500 → M = msgServerError) ∧
        (resp.status ≠ 403 → resp.status ≠ 400 → resp.status ≠ 500 →
          ((∀ m, d.message = some m → m ≠ "" → M = m) ∧
          (strTruthy d.message = false → ∀ e, d.error = some e → e ≠ "" → M = e) ∧
          (strTruthy d.message = false → strTruthy d.error = false →
            M = statusLineMsg resp.status resp.statusText))))) := by
  refine ⟨classifyError resp.status resp.statusText resp.jsonError.toOption, ?_, ?_, ?_⟩
  · unfold sendChatMessage sendChatMessageBody
    simp only [hkey, Bool.false_eq_true, if_false, hres, hnot, Bool.not_false, if_true]
    simp [Except.mapError, handleCatch]
  · intro e he
    rw [he]
    rfl
  · intro d hd
    rw [hd]
    exact classifyError_spec resp.status resp.statusText d

/-- Witness for the amended C2: concrete 403 with the invalid-key body. -/
theorem chat_non2xx_classification_witness :
    (sendChatMessage env403 "m" .chat "s1" none false).1 =
      .error { message := msgInvalidKey, details := .statusDetails 403 "Forbidden" } := by
  obtain ⟨M, h1, _h2, h3⟩ :=
    chat_non2xx_classification env403 resp403 "m" .chat "s1" none false (by decide) rfl (by decide)
  have hM : M = msgInvalidKey := (((h3 errBody403 rfl).1) rfl).1 (Or.inl rfl)
  rw [hM] at h1
  exact h1.trans (by decide)

/-- With the in-flight flag set, `onresult` never dispatches and never clears
the flag. -/
theorem onresultStep_processing (s : SpeechState) (ev : List Segment)
    (h : s.isProcessing = true) :
    (onresultStep s ev).2 = none ∧ ((onresultStep s ev).1).isProcessing = true := by
  unfold onresultStep
  have hc : ¬(finalText ev ≠ "" ∧ s.isVoiceMode = true ∧ s.hasCallback = true ∧
      s.isProcessing = false) := by
    simp [h]
  rw [if_neg hc]
  exact ⟨rfl, h⟩

/-- A dispatch happens only under the guards of lines 148-153, sets the
in-flight flag, and carries the trimmed accumulated final text. -/
theorem onresultStep_dispatch (s : SpeechState) (ev : List Segment) (t : String)
    (h : (onresultStep s ev).2 = some t) :
    finalText ev ≠ "" ∧ s.isVoiceMode = true ∧ s.hasCallback = true ∧
      s.isProcessing = false ∧ t = jsTrim (s.finalTranscript ++ finalText ev) ∧
      t ≠ "" ∧ t ≠ s.lastProcessed ∧ t.length > 2 ∧
      ((onresultStep s ev).1).isProcessing = true := by
  unfold onresultStep at h ⊢
  split at h
  case isTrue hc =>
    split at h
    case isTrue hc2 =>
      simp only [Option.some.injEq] at h
      rw [if_pos hc, if_pos hc2]
      subst h
      exact ⟨hc.1, hc.2.1, hc.2.2.1, hc.2.2.2, rfl, hc2.1, hc2.2.1, hc2.2.2, rfl⟩
    case isFalse hc2 =>
      simp at h
  case isFalse hc =>
    simp at h

/-- Once the in-flight flag is set, a run of result events dispatches
nothing. -/
theorem runResults_processing (s : SpeechState) (evs : List (List Segment))
    (h : s.isProcessing = true) : (runResults s evs).2 = [] := by
  induction evs generalizing s with
  | nil => rfl
  | cons ev rest ih =>
    unfold runResults
    obtain ⟨h1, h2⟩ := onresultStep_processing s ev h
    simp [h1, ih _ h2]

/-- A run of result events dispatches at most once in total. -/
theorem runResults_length (s : SpeechState) (evs : List (List Segment)) :
    (runResults s evs).2.length ≤ 1 := by
  induction evs generalizing s with
  | nil => simp [runResults]
  | cons ev rest ih =>
    unfold runResults
    rcases hstep : (onresultStep s ev).2 with _ | t
    · simpa using ih (onresultStep s ev).1
    · obtain ⟨_, _, _, _, _, _, _, _, hpost⟩ := onresultStep_dispatch s ev t hstep
      have hrest : (runResults (onresultStep s ev).1 rest).2 = [] :=
        runResults_processing _ _ hpost
      simp [hrest]

/-- A list of length at most one has no duplicates. -/
theorem length_le_one_nodup {l : List String} (h : l.length ≤ 1) : l.Nodup := by
  match l with
  | [] => exact List.nodup_nil
  | [a] => simp
  | a :: b :: rest => simp at h

/-- C3: in voice mode the utterance callback is dispatched at most once per
distinct trimmed accumulated final text over any sequence of result events
(indeed at most once in total until the in-flight flag is cleared); a
dispatch occurs only when the event carries a finalized segment, the trimmed
accumulated final text is non-empty, longer than 2 characters, differs from
the last dispatched text, and no dispatch is in flight; and two finalized
result events carrying the same text from a ready voice-mode state yield
exactly one dispatch. -/
theorem speech_dedup_dispatch :
    (∀ s ev t, (onresultStep s ev).2 = some t →
      finalText ev ≠ "" ∧ s.isVoiceMode = true ∧ s.hasCallback = true ∧
        s.isProcessing = false ∧ t = jsTrim (s.finalTranscript ++ finalText ev) ∧
        t ≠ "" ∧ t ≠ s.lastProcessed ∧ t.length > 2) ∧
    (∀ s evs, (runResults s evs).2.length ≤ 1 ∧ (runResults s evs).2.Nodup) ∧
    (∀ s ev, s.isVoiceMode = true → s.hasCallback = true → s.isProcessing = false →
      finalText ev ≠ "" → jsTrim (s.finalTranscript ++ finalText ev) ≠ "" →
      jsTrim (s.finalTranscript ++ finalText ev) ≠ s.lastProcessed →
      (jsTrim (s.finalTranscript ++ finalText ev)).length > 2 →
      (runResults s [ev, ev]).2.length = 1) := by
  refine ⟨?_, ?_, ?_⟩
  · intro s ev t h
    obtain ⟨h1, h2, h3, h4, h5, h6, h7, h8, _⟩ := onresultStep_dispatch s ev t h
    exact ⟨h1, h2, h3, h4, h5, h6, h7, h8⟩
  · intro s evs
    exact ⟨runResults_length s evs, length_le_one_nodup (runResults_length s evs)⟩
  · intro s ev hv hc hp hf hne hlast hlen
    have hstep : (onresultStep s ev).2 = some (jsTrim (s.finalTranscript ++ finalText ev)) := by
      unfold onresultStep
      rw [if_pos ⟨hf, hv, hc, hp⟩, if_pos ⟨hne, hlast, hlen⟩]
    obtain ⟨_, _, _, _, _, _, _, _, hpost⟩ :=
      onresultStep_dispatch s ev (jsTrim (s.finalTranscript ++ finalText ev)) hstep
    have hrest : (runResults (onresultStep s ev).1 [ev]).2 = [] :=
      runResults_processing _ _ hpost
    unfold runResults
    simp [hstep, hrest]

/-- Witness for C3: two identical finalized "merhaba" events right after a
voice-mode start yield exactly one dispatch. -/
theorem speech_dedup_dispatch_witness :
    (runResults sVoice [evMerhaba, evMerhaba]).2.length = 1 :=
  speech_dedup_dispatch.2.2 sVoice evMerhaba (by decide) (by decide) (by decide)
    (by decide) (by decide) (by decide) (by decide)

/-- The scheduler invariant transfers across state updates that keep the
pending list and the stored timeout handle. -/
theorem timerInv_congr (s2 s : SpeechState) (hp : s2.pending = s.pending)
    (ht : s2.timeoutId = s.timeoutId) (hinv : timerInv s) : timerInv s2 := by
  intro t hmem
  rw [hp] at hmem
  obtain ⟨h1, h2⟩ := hinv t hmem
  constructor
  · intro hk
    rw [ht]
    exact h1 hk
  · intro hk
    rw [ht]
    exact h2 hk

/-- Under the scheduler invariant, `cleanup` cancels every pending restart
timer. -/
theorem cleanup_no_restart (s : SpeechState) (hinv : timerInv s) :
    ∀ t, t ∈ (cleanup s).pending → t.kind ≠ TimerKind.restart := by
  intro t hmem hk
  unfold cleanup at hmem
  rcases hid : s.timeoutId with _ | i
  · rw [hid] at hmem
    dsimp at hmem
    have h1 := (hinv t hmem).1 hk
    rw [hid] at h1
    exact Option.noConfusion h1
  · rw [hid] at hmem
    dsimp at hmem
    rw [List.mem_filter] at hmem
    have h1 := (hinv t hmem.1).1 hk
    rw [hid] at h1
    have h2 : i = t.id := by injection h1
    have h3 := hmem.2
    rw [h2] at h3
    simp at h3

/-- `cleanup` retains every pending dispatch timer: only the stored restart
handle is cancelled. -/
theorem cleanup_keeps_dispatch (s : SpeechState) (hinv : timerInv s) :
    ∀ t, t ∈ s.pending → t.kind ≠ TimerKind.restart → t ∈ (cleanup s).pending := by
  intro t hmem hk
  unfold cleanup
  rcases hid : s.timeoutId with _ | i
  · dsimp
    exact hmem
  · dsimp
    rw [List.mem_filter]
    refine ⟨hmem, ?_⟩
    have h2 := (hinv t hmem).2 hk
    rw [hid] at h2
    simp only [bne_iff_ne, ne_eq]
    intro hcon
    exact h2 (by rw [hcon])

/-- Field effects of `cleanup`. -/
theorem cleanup_flags (s : SpeechState) :
    (cleanup s).recognitionActive = false ∧ (cleanup s).isListening = false ∧
    (cleanup s).isProcessing = false ∧ (cleanup s).isVoiceMode = s.isVoiceMode ∧
    (cleanup s).hasCallback = s.hasCallback ∧
    (cleanup s).permissionQueries = s.permissionQueries ∧
    (cleanup s).alerts = s.alerts ∧ (cleanup s).callbackLog = s.callbackLog := by
  unfold cleanup
  cases hid : s.timeoutId <;> exact ⟨rfl, rfl, rfl, rfl, rfl, rfl, rfl, rfl⟩

/-- Past the support and permission gates, every `startListening` path
(instantiation failure, start success, start failure) leaves exactly the
pending timers that `cleanup` kept. -/
theorem startListening_pending_eq (env2 : StartEnv) (hasCb : Bool) (s : SpeechState)
    (hsup : s.isSupported = true) (hperm : env2.hasPermission = true) :
    (resultState (startListening env2 hasCb s)).pending =
      (cleanup { s with permissionQueries := s.permissionQueries + 1 }).pending := by
  unfold startListening
  rw [hsup, hperm]
  simp only [Bool.not_true, Bool.false_eq_true, if_false]
  cases hi : env2.instOk with
  | false =>
    simp only [Bool.not_false, if_true]
    rfl
  | true =>
    simp only [Bool.not_true, Bool.false_eq_true, if_false]
    cases hs2 : env2.startOk with
    | true => rfl
    | false => rfl

/-- C4 counterexample: in a voice-mode session a finalized result schedules
the 100ms dispatch timer with a discarded handle (it is pending but
`timeoutRef` does not know it); after `stopListening` the controller has
moved on (voice mode off, not listening, callback not yet invoked) and the
stale timer is still pending; firing it still invokes the utterance callback
with the captured text. -/
theorem speech_stale_dispatch_timer_fires :
    sDispatched.pending = [{ id := 0, kind := .dispatch "merhaba" }] ∧
    sDispatched.timeoutId = none ∧
    sStopped.pending = [{ id := 0, kind := .dispatch "merhaba" }] ∧
    sStopped.callbackLog = [] ∧
    sStopped.isVoiceMode = false ∧
    sStopped.isListening = false ∧
    (fireTimer envOk sStopped 0).toOption.map (fun s => s.callbackLog) = some ["merhaba"] := by
  decide

/-- C4 amended: the restart-delay timer is cancelable and `stopListening`
cancels it (its handle is the stored `timeoutRef`), so after `stopListening`
no restart timer is pending, voice mode is off, and firing any stale timer
resolves without restarting the engine or querying permissions (a stale
dispatch timer, whose handle was discarded, may still append its callback
invocation); a `startListening` that passes the permission gate likewise
cancels the pending restart timer on every path. -/
theorem speech_restart_timer_cancelable (s : SpeechState) (hinv : timerInv s) :
    (∀ t, t ∈ (stopListening s).pending → t.kind ≠ TimerKind.restart) ∧
    (∀ t, t ∈ s.pending → t.kind ≠ TimerKind.restart → t ∈ (stopListening s).pending) ∧
    (stopListening s).isVoiceMode = false ∧
    (∀ env2 i, ∃ s2, fireTimer env2 (stopListening s) i = .ok s2 ∧
      s2.recognitionActive = false ∧ s2.isListening = false ∧
      s2.permissionQueries = s.permissionQueries ∧
      s2.alerts = (stopListening s).alerts) ∧
    (∀ env2 hasCb, env2.hasPermission = true → s.isSupported = true →
      ∀ t, t ∈ (resultState (startListening env2 hasCb s)).pending →
        t.kind ≠ TimerKind.restart) := by
  have hinv2 : timerInv { s with isVoiceMode := false, hasCallback := false, isProcessing := false, lastProcessed := "" } := timerInv_congr _ s rfl rfl hinv
  have hnr : ∀ t, t ∈ (stopListening s).pending → t.kind ≠ TimerKind.restart := by
    intro t hmem
    exact cleanup_no_restart _ hinv2 t hmem
  obtain ⟨f1, f2, f3, f4, f5, f6, f7, f8⟩ := cleanup_flags { s with isVoiceMode := false, hasCallback := false, isProcessing := false, lastProcessed := "" }
  refine ⟨hnr, ?_, ?_, ?_, ?_⟩
  · intro t hmem hk
    exact cleanup_keeps_dispatch _ hinv2 t hmem hk
  · exact f4
  · intro env2 i
    rcases hf : (stopListening s).pending.find? (fun t => t.id == i) with _ | t
    · refine ⟨stopListening s, ?_, f1, f2, f6, rfl⟩
      unfold fireTimer
      rw [hf]
    · have hmem := List.mem_of_find?_eq_some hf
      have hnrt := hnr t hmem
      rcases hkind : t.kind with txt | _
      · refine ⟨{ stopListening s with
            pending := (stopListening s).pending.filter (fun u => u.id != i),
            callbackLog := (stopListening s).callbackLog ++ [txt] }, ?_, f1, f2, f6, rfl⟩
        unfold fireTimer
        rw [hf]
        dsimp only
        rw [hkind]
      · exact absurd hkind hnrt
  · intro env2 hasCb hperm hsup t hmem
    have hinv1 : timerInv { s with permissionQueries := s.permissionQueries + 1 } := timerInv_congr _ s rfl rfl hinv
    rw [startListening_pending_eq env2 hasCb s hsup hperm] at hmem
    exact cleanup_no_restart _ hinv1 t hmem

/-- Witness for the amended C4: a state holding one dispatch and one restart
timer (handle stored) loses exactly the restart timer on `stopListening`,
and firing the survivor does not restart the engine. -/
theorem speech_restart_timer_cancelable_witness :
    (∀ t, t ∈ (stopListening sWithTimers).pending → t.kind ≠ TimerKind.restart) ∧
    (stopListening sWithTimers).isVoiceMode = false ∧
    (∃ s2, fireTimer envOk (stopListening sWithTimers) 0 = .ok s2 ∧
      s2.recognitionActive = false ∧ s2.isListening = false ∧
      s2.permissionQueries = sWithTimers.permissionQueries ∧
      s2.alerts = (stopListening sWithTimers).alerts) := by
  obtain ⟨h1, _h2, h3, h4, _h5⟩ := speech_restart_timer_cancelable sWithTimers (by unfold timerInv; decide)
  exact ⟨h1, h3, h4 envOk 0⟩
